import Mathlib

/-!
Shallow embedding of the scraping core of the superstore_insight_engine
repository (src/05_scrape_demo.py) and of the parallel-reports script
(src/06_parallel_reports.py).

Modelling conventions:
  - Python strings that may be absent (None) are `Option String`; Python
    truthiness on such values (`x or y`, `if x:`) is `pyTruthy`/`pyOr`.
  - pyquery elements are modelled as a `Card` of selector-indexed query
    functions: `card(sel).text()` is `card.text sel` (returns the empty
    string for an empty selection, as pyquery does) and
    `card(sel).attr(name)` is `card.attr sel name` (None for a missing
    attribute).
  - Exceptions are `Except`; a fetched document is passed in explicitly,
    wrapped in `Except Unit` when the enclosing code observes fetch failure.
  - Machine text operations (str.replace, str.strip, urllib.parse.urljoin,
    urllib.parse.quote_plus) are modelled as structural functions on
    `List Char` so that all definitions are kernel-evaluable.
-/

/-- Python truthiness of an optional string: None and the empty string are
falsy, every other string is truthy. -/
def pyTruthy : Option String → Bool
  | none => false
  | some s => s != ""

/-- Python `a or b` on optional strings: returns `a` when truthy, else `b`. -/
def pyOr (a b : Option String) : Option String := if pyTruthy a then a else b

/-- Inject a plain Python string (e.g. a pyquery .text() result) into the
optional-string domain used by the `or` chains. -/
def pyS (s : String) : Option String := some s

/-- Final string value of an `or` chain result (None becomes the empty
string; the code only does this where Python would hold a string or None). -/
def pyVal (a : Option String) : String := a.getD ""

/-- Characters stripped by Python str.strip() that can occur in scraped
text: ASCII whitespace and the no-break space U+00A0. -/
def isPySpace (c : Char) : Bool :=
  c = ' ' || c = '\t' || c = '\n' || c = '\r' || c = Char.ofNat 11 ||
    c = Char.ofNat 12 || c = Char.ofNat 160

/-- Model of Python str.replace for a single-character pattern. -/
def replaceChar (t : Char) (rep : List Char) : List Char → List Char
  | [] => []
  | c :: cs => (if c = t then rep else [c]) ++ replaceChar t rep cs

/-- Model of Python str.replace for the four-character literal pattern
backslash-x-a-0 (the mis-escaped NBSP artifact), replaced by a space. -/
def replaceBsxa0 : List Char → List Char
  | a :: b :: c :: d :: rest =>
      if a = '\\' && b = 'x' && c = 'a' && d = '0' then
        ' ' :: replaceBsxa0 rest
      else
        a :: replaceBsxa0 (b :: c :: d :: rest)
  | l => l

/-- Model of Python str.strip(): drop leading and trailing whitespace. -/
def stripL (l : List Char) : List Char :=
  ((l.dropWhile isPySpace).reverse.dropWhile isPySpace).reverse

/-- Embedding of `_clean` (05_scrape_demo.py lines 23-25):
`s.replace("\\xa0", " ").replace("\xa0", " ").replace("Â", "").strip()`.
Character 160 is the no-break space, character 194 is the mis-decoded
artifact removed by the third replace. -/
def _clean (s : String) : String :=
  ⟨stripL (replaceChar (Char.ofNat 194) []
      (replaceChar (Char.ofNat 160) [' '] (replaceBsxa0 s.data)))⟩

/-- Scheme tail scanner: after an initial letter, a URL scheme is a run of
alphanumeric or plus, minus, dot characters terminated by a colon. -/
def hasSchemeTail : List Char → Bool
  | [] => false
  | c :: cs =>
      if c = ':' then true
      else if c.isAlphanum || c = '+' || c = '-' || c = '.' then hasSchemeTail cs
      else false

/-- Whether a character list begins with a URL scheme (letter, then scheme
characters, then a colon before any slash), i.e. is an absolute URL in the
sense of RFC 3986 resolution. -/
def hasSchemeL : List Char → Bool
  | [] => false
  | c :: cs => c.isAlpha && hasSchemeTail cs

/-- Whether a string is an absolute URL (has a scheme). -/
def hasScheme (s : String) : Bool := hasSchemeL s.data

/-- Whether a character list starts with the literal text http:// or
https:// — the shape of the configured base URLs. -/
def isHttpL : List Char → Bool
  | 'h' :: 't' :: 't' :: 'p' :: ':' :: '/' :: '/' :: _ => true
  | 'h' :: 't' :: 't' :: 'p' :: 's' :: ':' :: '/' :: '/' :: _ => true
  | _ => false

/-- Whether a string starts with http:// or https://. -/
def isHttpBase (s : String) : Bool := isHttpL s.data

/-- Split a URL at the first occurrence of the text colon-slash-slash,
returning the scheme part and the remainder. -/
def splitSchemeSep : List Char → Option (List Char × List Char)
  | [] => none
  | ':' :: '/' :: '/' :: rest => some ([], rest)
  | c :: cs =>
      match splitSchemeSep cs with
      | some p => some (c :: p.1, p.2)
      | none => none

/-- Directory part of a URL path: everything up to and including the last
slash; the root slash when the path has no slash. -/
def dirOfPath (p : List Char) : List Char :=
  let r := (p.reverse.dropWhile (fun c => c != '/')).reverse
  if r = [] then ['/'] else r

/-- Model of urllib.parse.urljoin restricted to the cases exercised here
(http or https base URLs; no dot-segment normalization, no query or
fragment splitting of the base): the empty URL yields the base, an
absolute URL stands alone, a network-path reference takes the base scheme,
an absolute path takes scheme and host, and a relative path is appended to
the directory of the base path. -/
def urljoinL (base url : List Char) : List Char :=
  match url with
  | [] => base
  | _ =>
    if hasSchemeL url then url
    else
      match splitSchemeSep base with
      | none => url
      | some (sch, rest) =>
        let host := rest.takeWhile (fun c => c != '/')
        let path := rest.drop host.length
        match url with
        | '/' :: '/' :: _ => sch ++ ':' :: url
        | '/' :: _ => sch ++ ':' :: '/' :: '/' :: (host ++ url)
        | _ => sch ++ ':' :: '/' :: '/' :: (host ++ dirOfPath path ++ url)

/-- String-level urljoin. -/
def urljoin (base url : String) : String := ⟨urljoinL base.data url.data⟩

/-- Uppercase hexadecimal digit for a value below 16. -/
def hexDigitU (n : Nat) : Char := if n < 10 then Char.ofNat (48 + n) else Char.ofNat (55 + n)

/-- UTF-8 bytes of a character, as natural numbers below 256. -/
def utf8Bytes (c : Char) : List Nat :=
  let n := c.toNat
  if n < 128 then [n]
  else if n < 2048 then [192 + n / 64, 128 + n % 64]
  else if n < 65536 then [224 + n / 4096, 128 + (n / 64) % 64, 128 + n % 64]
  else [240 + n / 262144, 128 + (n / 4096) % 64, 128 + (n / 64) % 64, 128 + n % 64]

/-- Percent-encoding of one byte, with uppercase hex digits as in Python. -/
def pctByte (n : Nat) : List Char := ['%', hexDigitU (n / 16), hexDigitU (n % 16)]

/-- Encoding of one character under urllib.parse.quote_plus: space becomes
plus; ASCII letters, digits and underscore, dot, minus, tilde pass through;
everything else is percent-encoded bytewise. -/
def quotePlusChar (c : Char) : List Char :=
  if c = ' ' then ['+']
  else if c.isAlphanum || c = '_' || c = '.' || c = '-' || c = '~' then [c]
  else ((utf8Bytes c).map pctByte).flatten

/-- Model of urllib.parse.quote_plus. -/
def quote_plus (s : String) : String := ⟨(s.data.map quotePlusChar).flatten⟩

/-- Whether a character list starts with the given pattern. -/
def startsWithL : List Char → List Char → Bool
  | _, [] => true
  | [], _ :: _ => false
  | c :: cs, d :: ds => c = d && startsWithL cs ds

/-- Whether a character list contains the given pattern as a contiguous
subsequence (Python `pat in s`). -/
def containsL : List Char → List Char → Bool
  | [], pat => pat.isEmpty
  | c :: cs, pat => startsWithL (c :: cs) pat || containsL cs pat

/-- Python str.rstrip("/"): drop trailing slashes. -/
def rstripSlash (cs : List Char) : List Char :=
  (cs.reverse.dropWhile (fun c => c = '/')).reverse

/-- A normalized scraped item: 05_scrape_demo.py builds dicts with keys
title, price, href. -/
structure Item where
  title : String
  price : String
  href : String
deriving DecidableEq

/-- A per-site success record: source URL, item count, bounded preview and
the optional note (present only for the Readers search fallback). -/
structure SiteResult where
  source : String
  items_count : Nat
  items_preview : List Item
  note : Option String
deriving DecidableEq

/-- A pyquery element (product card or document), modelled by its
selector-indexed text and attribute queries. -/
structure Card where
  text : String → String
  attr : String → String → Option String

/-- Default of SCRAPE_TIME_URL (05_scrape_demo.py line 9). -/
def TIME_URL : String := "https://shop.timecenter.jo/collections/men-watches"

/-- Default of SCRAPE_CITY_URL (05_scrape_demo.py line 10). -/
def CITY_URL : String := "https://citycenter.jo/pc-and-laptops/pc-and-laptops-laptops"

/-- Default of SCRAPE_READERS_URL (05_scrape_demo.py line 11). -/
def READERS_URL : String := "https://www.readers.jo/"

/-- Default of SCRAPE_READERS_QUERY (05_scrape_demo.py line 12). -/
def READERS_QUERY : String := "book"

/-- The card loop shared by the three HTML extraction passes
(05_scrape_demo.py lines 38-52, 83-96, 143-159): for each card, break once
8 items are held, build the per-card item, and append it when the raw
title is truthy. `mk` is the per-site field-extraction function. -/
def collectCards (mk : Card → Option Item) : List Card → List Item → List Item
  | [], items => items
  | card :: rest, items =>
    if 8 ≤ items.length then items
    else
      match mk card with
      | some it => collectCards mk rest (items ++ [it])
      | none => collectCards mk rest items

/-- The common tail of every card and JSON-LD item construction
(05_scrape_demo.py lines 51-52, 95-96, 120-121, 158-159): gate on the raw
title truthiness, clean title and price, resolve href against the base. -/
def mkCardItem (base : String) (title price href : Option String) : Option Item :=
  if pyTruthy title then
    some { title := _clean (pyVal title), price := _clean (pyVal price),
           href := urljoin base (pyVal href) }
  else none

/-- Per-card extraction of the City Center extractor (05_scrape_demo.py
lines 40-52): the title, price and href selector fallback chains, the raw
title truthiness gate, `_clean` on title and price, and href resolution
against the page URL. -/
def ccMkItem (cityUrl : String) (card : Card) : Option Item :=
  let title := pyOr (pyS (card.text "h4 a"))
      (pyOr (pyS (card.text "h3 a"))
        (pyOr (pyS (card.text ".product-title a"))
          (pyOr (pyS (card.text ".title a")) (card.attr "a" "title"))))
  let price := pyOr (pyS (card.text ".price .price-new"))
      (pyOr (pyS (card.text ".price"))
        (pyOr (pyS (card.text ".product-price"))
          (pyOr (pyS (card.text ".new-price")) (pyS (card.text ".amount")))))
  let href := pyOr (card.attr "h4 a" "href")
      (pyOr (card.attr "h3 a" "href") (pyOr (card.attr "a" "href") (some "")))
  mkCardItem cityUrl title price href

/-- Embedding of parse_citycenter_laptops (05_scrape_demo.py lines 33-55)
given the fetched page's product cards: collect up to 8 items, raise when
none were parsed, else return the success record. -/
def parse_citycenter_laptops (cityUrl : String) (cards : List Card) :
    Except String SiteResult :=
  let items := collectCards (ccMkItem cityUrl) cards []
  if items = [] then .error "No product cards parsed on City Center page."
  else .ok { source := cityUrl, items_count := items.length,
             items_preview := items.take 8, note := none }

/-- A variant entry of a Shopify products.json product: only its price is
read (05_scrape_demo.py line 70). -/
structure TCVariant where
  price : Option String
deriving DecidableEq

/-- A product entry of the Shopify products.json payload: the fields read
by the JSON tier (05_scrape_demo.py lines 67-69). A missing or falsy
variants key is the empty list, as under `p.get("variants") or []`. -/
structure TCProduct where
  title : Option String
  handle : Option String
  variants : List TCVariant
deriving DecidableEq

/-- Embedding of the products.json URL construction (05_scrape_demo.py
lines 60-61): strip the query string and trailing slashes from the
configured URL; if it contains the collections path segment, append
/products.json, else use the shop root endpoint. -/
def prodJsonUrl (timeUrl : String) : String :=
  let base : String := ⟨rstripSlash (timeUrl.data.takeWhile (fun c => c != '?'))⟩
  if containsL base.data "/collections/".data then base ++ "/products.json"
  else "https://shop.timecenter.jo/products.json"

/-- Per-product item construction of the Time Center JSON tier
(05_scrape_demo.py lines 66-73): title and handle from the product, price
of the first variant when any, the canonical product URL from a truthy
handle (else the configured listing URL), gated on a truthy title. -/
def tcJsonItem (timeUrl : String) (p : TCProduct) : Option Item :=
  let price : Option String :=
    match p.variants with
    | [] => none
    | v :: _ => v.price
  let href : String :=
    match p.handle with
    | some h => if h = "" then timeUrl else "https://shop.timecenter.jo/products/" ++ h
    | none => timeUrl
  if pyTruthy p.title then
    some { title := _clean (pyVal p.title), price := _clean (pyVal price), href := href }
  else none

/-- Items of the Time Center JSON tier: the first 8 products, each kept
when its title is truthy (05_scrape_demo.py line 66). -/
def tcJsonItems (timeUrl : String) (ps : List TCProduct) : List Item :=
  (ps.take 8).filterMap (tcJsonItem timeUrl)

/-- Per-card extraction of the Time Center HTML tier (05_scrape_demo.py
lines 85-96). -/
def tcMkItem (timeUrl : String) (card : Card) : Option Item :=
  let title := pyOr (card.attr "h3 a" "title")
      (pyOr (pyS (card.text "h3 a"))
        (pyOr (pyS (card.text ".card__heading a"))
          (pyOr (pyS (card.text ".product-item__title a"))
            (pyS (card.text ".product-title a")))))
  let price := pyOr (pyS (card.text ".price-item--regular"))
      (pyOr (pyS (card.text ".price__current"))
        (pyOr (pyS (card.text ".price .price-item"))
          (pyOr (pyS (card.text ".money")) (pyS (card.text ".price")))))
  let href := pyOr (card.attr "a" "href") (some "")
  mkCardItem timeUrl title price href

/-- The two fetches parse_timecenter_shopify may perform: the outcome of
the products.json tier (error covers a raised fetch as well as any other
exception inside the try block, e.g. a payload whose shape breaks the
products access — all are swallowed alike by the bare except) and the
outcome of the HTML page fetch. -/
structure TCFetches where
  jsonTier : Except Unit (List TCProduct)
  htmlTier : Except Unit (List Card)

/-- The HTML fallback tier of parse_timecenter_shopify (05_scrape_demo.py
lines 79-99): a failed page fetch propagates; zero collected items raise;
else the success record is returned. -/
def tcHtmlTierRun (timeUrl : String) (h : Except Unit (List Card)) :
    Except String SiteResult :=
  match h with
  | .error _ => .error "HTTPError"
  | .ok cards =>
    let items := collectCards (tcMkItem timeUrl) cards []
    if items = [] then
      .error "No product items from Shopify JSON nor HTML on Time Center."
    else .ok { source := timeUrl, items_count := items.length,
               items_preview := items.take 8, note := none }

/-- Embedding of parse_timecenter_shopify (05_scrape_demo.py lines 58-99).
The second component counts the fetch calls performed: 1 when the JSON
tier answers with at least one item, 2 once the HTML tier fetches. -/
def parse_timecenter_shopify (timeUrl : String) (w : TCFetches) :
    Except String SiteResult × Nat :=
  match w.jsonTier with
  | .ok ps =>
    let items := tcJsonItems timeUrl ps
    if items = [] then (tcHtmlTierRun timeUrl w.htmlTier, 2)
    else (.ok { source := prodJsonUrl timeUrl, items_count := items.length,
                items_preview := items, note := none }, 1)
  | .error _ => (tcHtmlTierRun timeUrl w.htmlTier, 2)

/-- The offers value of a JSON-LD product node. `noOffers` covers a
missing, falsy, or non-dict offers value, where the isinstance check in
push_product leaves the price None (a missing or falsy offers also becomes
the empty dict, whose lookups are likewise None). When offers is a dict,
its price and its priceSpecification price are the two lookups of
05_scrape_demo.py line 118, already stringified as by `str(price)`. -/
inductive LdOffers where
  | noOffers
  | offersDict (price : Option String) (priceSpecPrice : Option String)
deriving DecidableEq

/-- The product-shaped fields a JSON-LD dict node exposes to push_product
(05_scrape_demo.py lines 112-121): name, offers, url. -/
structure ProdFields where
  name : Option String
  offers : LdOffers
  url : Option String
deriving DecidableEq

/-- Embedding of push_product (05_scrape_demo.py lines 112-121) applied to
a dict node: price from offers.price, else from
offers.priceSpecification.price; url defaulted to the empty string; the
item is pushed only when the name is truthy. A non-dict argument pushes
nothing (callers encode that case separately). -/
def push_product (base : String) (p : ProdFields) : Option Item :=
  let price : Option String :=
    match p.offers with
    | .noOffers => none
    | .offersDict pr psp => pyOr pr psp
  mkCardItem base p.name price (pyOr p.url (some ""))

/-- The value under the item key of an itemListElement entry: a truthy
non-dict value (push_product ignores it) or a dict with product fields. A
missing or falsy item value is encoded as `none` at the use site, since
`li.get("item") or li` then falls back to the entry itself. -/
inductive LdItemVal where
  | nonDict (truthy : Bool)
  | dict (p : ProdFields)
deriving DecidableEq

/-- An entry of a JSON-LD itemListElement array: either not a dict
(skipped by the isinstance check, 05_scrape_demo.py lines 130, 137) or a
dict with its own product fields and an optional item value. -/
inductive LdLi where
  | nonDict
  | dict (fields : ProdFields) (item : Option LdItemVal)
deriving DecidableEq

/-- A top-level JSON-LD dict node: its @type, its own product fields (used
when the node is a Product) and its itemListElement entries (used when the
node is an ItemList; missing defaults to the empty list). -/
structure LdEntryObj where
  typ : Option String
  fields : ProdFields
  itemListElement : List LdLi
deriving DecidableEq

/-- A top-level entry of a JSON-LD array: a dict node or a non-dict value
(skipped by the isinstance check, 05_scrape_demo.py line 125). -/
inductive LdEntry where
  | nonDict
  | dict (e : LdEntryObj)
deriving DecidableEq

/-- A parsed JSON-LD script payload: an array, a dict, or any other JSON
value (which yields nothing, 05_scrape_demo.py lines 123-138). -/
inductive LdData where
  | lst (entries : List LdEntry)
  | dict (e : LdEntryObj)
  | other
deriving DecidableEq

/-- A fetched Readers page: its JSON-LD script blocks (`none` marks a
block whose json.loads raises and is skipped, 05_scrape_demo.py lines
107-110) and its product cards for the HTML pass. -/
structure ReadersDoc where
  scripts : List (Option LdData)
  cards : List Card

/-- Item pushed for one itemListElement entry (05_scrape_demo.py lines
129-131 and 136-138): skip non-dict entries; for a dict entry, push the
item value when it is a truthy dict, push nothing when it is a truthy
non-dict, and push the entry itself when the item key is missing or falsy. -/
def ldLiItem (base : String) (li : LdLi) : Option Item :=
  match li with
  | .nonDict => none
  | .dict fields item =>
    match item with
    | some (.dict p) => push_product base p
    | some (.nonDict _) => none
    | none => push_product base fields

/-- Items contributed by one JSON-LD dict node: its own product when it is
a Product, its list entries when it is an ItemList, nothing otherwise
(05_scrape_demo.py lines 126-131, 133-138). -/
def ldEntryItems (base : String) (e : LdEntryObj) : List Item :=
  if e.typ = some "Product" then (push_product base e.fields).toList
  else if e.typ = some "ItemList" then e.itemListElement.filterMap (ldLiItem base)
  else []

/-- Items contributed by one parsed JSON-LD payload. -/
def ldDataItems (base : String) (d : LdData) : List Item :=
  match d with
  | .lst entries =>
      (entries.map (fun en =>
        match en with
        | .nonDict => []
        | .dict e => ldEntryItems base e)).flatten
  | .dict e => ldEntryItems base e
  | .other => []

/-- The JSON-LD pass of _readers_extract_from_doc (05_scrape_demo.py lines
106-138): every script block in order, parse failures skipped. This pass
has no cap on the number of items. -/
def ldItems (base : String) (scripts : List (Option LdData)) : List Item :=
  (scripts.map (fun s =>
    match s with
    | none => []
    | some d => ldDataItems base d)).flatten

/-- Per-card extraction of the Readers HTML pass (05_scrape_demo.py lines
145-159). -/
def rdMkItem (base : String) (card : Card) : Option Item :=
  let title := pyOr (pyS (card.text ".caption h4 a"))
      (pyOr (pyS (card.text "h4 a"))
        (pyOr (pyS (card.text ".name a"))
          (pyOr (pyS (card.text "h3 a")) (card.attr "a" "title"))))
  let price := pyOr (pyS (card.text ".price .price-new"))
      (pyOr (pyS (card.text ".price .price-old"))
        (pyOr (pyS (card.text ".price")) (pyS (card.text ".product-price"))))
  let href := pyOr (card.attr ".caption h4 a" "href")
      (pyOr (card.attr "h4 a" "href") (pyOr (card.attr "a" "href") (some "")))
  mkCardItem base title price href

/-- Embedding of _readers_extract_from_doc (05_scrape_demo.py lines
102-161): the uncapped JSON-LD pass, then the HTML card pass only when
fewer than 8 items were collected, appending up to the cap. -/
def _readers_extract_from_doc (doc : ReadersDoc) (base : String) : List Item :=
  let items := ldItems base doc.scripts
  if items.length < 8 then collectCards (rdMkItem base) doc.cards items else items

/-- The search fallback URL of parse_readers (05_scrape_demo.py line 171):
the OpenCart search route with the quote_plus-encoded query. -/
def readersSearchUrl (query : String) : String :=
  "https://www.readers.jo/index.php?route=product/search&search=" ++ quote_plus query

/-- An ASCII apostrophe, used in the search-fallback note text. -/
def apos : String := ⟨[Char.ofNat 39]⟩

/-- The note recorded on a successful search fallback
(05_scrape_demo.py line 176). -/
def readersNote (query : String) : String :=
  "Search fallback for " ++ apos ++ query ++ apos

/-- Embedding of parse_readers (05_scrape_demo.py lines 163-180), given
the outcome of fetching the primary page and, when consulted, of fetching
the search page. The second component lists the URLs passed to fetch, in
order. A failed fetch propagates out of the function (no further fetch);
when the primary page yields no items the search page is fetched exactly
once, a non-empty search result is returned with the note, and the
zero-zero case raises. -/
def parse_readers (readersUrl query : String) (primary : Except Unit ReadersDoc)
    (search : Except Unit ReadersDoc) : Except String SiteResult × List String :=
  match primary with
  | .error _ => (.error "HTTPError", [readersUrl])
  | .ok doc =>
    let items := _readers_extract_from_doc doc readersUrl
    if items = [] then
      let searchUrl := readersSearchUrl query
      match search with
      | .error _ => (.error "HTTPError", [readersUrl, searchUrl])
      | .ok sdoc =>
        let items2 := _readers_extract_from_doc sdoc searchUrl
        if items2 = [] then
          (.error "No product cards or JSON-LD products found on Readers (homepage and search).",
           [readersUrl, searchUrl])
        else
          (.ok { source := searchUrl, items_count := items2.length,
                 items_preview := items2.take 8, note := some (readersNote query) },
           [readersUrl, searchUrl])
    else
      (.ok { source := readersUrl, items_count := items.length,
             items_preview := items.take 8, note := none }, [readersUrl])

/-- A value stored in the combined output dict: a site's success record or
one of the error or trace strings. -/
inductive OutVal where
  | site (r : SiteResult)
  | txt (s : String)
deriving DecidableEq

/-- The fixed output path OUT_JSON (05_scrape_demo.py line 6), with the
POSIX path separator. -/
def OUT_JSON : String := "artifacts/reports/scraped_excerpt.json"

/-- One iteration of the orchestrator loop (05_scrape_demo.py lines
192-200): a successful step stores its record under the site name; a
raised error stores the formatted error and the trace under the suffixed
keys, and the loop continues either way. -/
def stepEntries (name : String) (oc : Except (String × String) SiteResult) :
    List (String × OutVal) :=
  match oc with
  | .ok r => [(name, .site r)]
  | .error et => [(name ++ "_error", .txt et.1), (name ++ "_trace", .txt et.2)]

/-- Embedding of the orchestrator main (05_scrape_demo.py lines 182-204):
fold the three per-site outcomes (each an Except carrying either the
success record or the formatted error and trace of the caught exception)
into the insertion-ordered output dict. (Named scrape_main because Lean
reserves the name of the source function for an entry point.) -/
def scrape_main (oc ot orr : Except (String × String) SiteResult) : List (String × OutVal) :=
  [("citycenter", oc), ("timecenter", ot), ("readers", orr)].foldl
    (fun out p => out ++ stepEntries p.1 p.2) []

/-- Model of `open(OUT_JSON, "w")` plus json.dump (05_scrape_demo.py lines
202-203) over a file system mapping paths to contents: mode w truncates,
so the written path maps to the new content whatever was there before. -/
def writeOut (fs : String → Option String) (path content : String) :
    String → Option String :=
  fun p => if p = path then some content else fs p

/-- A row of the cleaned superstore CSV, with the columns the three report
queries read (06_parallel_reports.py). Monetary values are modelled as
rationals; the parallel-versus-sequential equivalence does not depend on
the numeric representation. -/
structure Row where
  product_name : String
  category : String
  sub_category : String
  sales : Rat
  profit : Rat
  order_month : String
deriving DecidableEq

/-- Stable insertion of an element into a list sorted by `le`. -/
def insertBy {α : Type} (le : α → α → Bool) (x : α) : List α → List α
  | [] => [x]
  | y :: ys => if le x y then x :: y :: ys else y :: insertBy le x ys

/-- Stable insertion sort by `le`; models the pandas sorts (the
equivalence claim is insensitive to the tie-breaking order because both
runs sort with the same procedure). -/
def sortBy {α : Type} (le : α → α → Bool) : List α → List α
  | [] => []
  | x :: xs => insertBy le x (sortBy le xs)

/-- A record of the kpis report: one category with summed sales and
profit. -/
structure KpiRec where
  category : String
  sales : Rat
  profit : Rat
deriving DecidableEq

/-- A record of the top_losses report. -/
structure LossRec where
  product_name : String
  category : String
  sub_category : String
  sales : Rat
  profit : Rat
deriving DecidableEq

/-- A record of the monthly report: one order month with summed sales and
profit. -/
structure MonthRec where
  order_month : String
  sales : Rat
  profit : Rat
deriving DecidableEq

/-- A value of the merged reports dict. -/
inductive RepVal where
  | kpis (l : List KpiRec)
  | losses (l : List LossRec)
  | monthly (l : List MonthRec)
deriving DecidableEq

/-- Lookup in an association-list dict. -/
def lookupA (d : List (String × RepVal)) (k : String) : Option RepVal :=
  match d with
  | [] => none
  | p :: ps => if p.1 = k then some p.2 else lookupA ps k

/-- Model of Python dict.update: keys already present keep their position
and take the new value; new keys are appended in their own order. -/
def dictUpdate (d e : List (String × RepVal)) : List (String × RepVal) :=
  (d.map (fun p =>
    match lookupA e p.1 with
    | some v => (p.1, v)
    | none => p)) ++ e.filter (fun q => (lookupA d q.1).isNone)

/-- Distinct values of a key column in ascending order, as produced by the
pandas groupby index. -/
def groupKeys (keys : List String) : List String :=
  sortBy (fun a b => a ≤ b) keys.dedup

/-- Embedding of report_kpis (06_parallel_reports.py lines 10-13): group
by category, sum sales and profit, order by profit descending. -/
def report_kpis (df : List Row) : List (String × RepVal) :=
  let recs := (groupKeys (df.map (fun r => r.category))).map (fun c =>
    let g := df.filter (fun r => r.category = c)
    KpiRec.mk c ((g.map (fun r => r.sales)).sum) ((g.map (fun r => r.profit)).sum))
  [("kpis", RepVal.kpis (sortBy (fun a b => b.profit ≤ a.profit) recs))]

/-- Embedding of report_top_losses (06_parallel_reports.py lines 15-18):
the n rows of least profit, projected to the five reported columns. -/
def report_top_losses (df : List Row) (n : Nat) : List (String × RepVal) :=
  let worst := (sortBy (fun a b => a.profit ≤ b.profit) df).take n
  [("top_losses", RepVal.losses (worst.map (fun r =>
    LossRec.mk r.product_name r.category r.sub_category r.sales r.profit)))]

/-- Embedding of report_monthly (06_parallel_reports.py lines 20-23):
group by order month, sum sales and profit, ascending month order. -/
def report_monthly (df : List Row) : List (String × RepVal) :=
  let recs := (groupKeys (df.map (fun r => r.order_month))).map (fun m =>
    let g := df.filter (fun r => r.order_month = m)
    MonthRec.mk m ((g.map (fun r => r.sales)).sum) ((g.map (fun r => r.profit)).sum))
  [("monthly", RepVal.monthly recs)]

/-- A pool worker handle: apply_async defers the pure application of the
report function to the shared immutable input; get() forces it. The
workers are separate processes over the same read-only file, so each
worker computes exactly the function value. -/
def applyAsync {α β : Type} (f : α → β) (x : α) : Unit → β := fun _ => f x

/-- Embedding of run_parallel (06_parallel_reports.py lines 25-36): three
workers over the same input, results merged in the fixed order after all
complete. -/
def run_parallel (df : List Row) : List (String × RepVal) :=
  let r1 := applyAsync report_kpis df
  let r2 := applyAsync (fun d => report_top_losses d 15) df
  let r3 := applyAsync report_monthly df
  dictUpdate (dictUpdate (dictUpdate [] (r1 ())) (r2 ())) (r3 ())

/-- Embedding of run_sequential (06_parallel_reports.py lines 38-44). -/
def run_sequential (df : List Row) : List (String × RepVal) :=
  dictUpdate (dictUpdate (dictUpdate [] (report_kpis df)) (report_top_losses df 15))
    (report_monthly df)

/-- Embedding of the try/except of main (06_parallel_reports.py lines
52-56): the written output is the parallel result when the pool run
completes, else the sequential fallback result. `poolOk` abstracts whether
the pool run raises (e.g. at process-pool startup). -/
def reports_main_out (poolOk : Bool) (df : List Row) : List (String × RepVal) :=
  if poolOk then run_parallel df else run_sequential df

theorem pyTruthy_val_ne {t : Option String} (h : pyTruthy t = true) : pyVal t ≠ "" := by
  cases t with
  | none => simp [pyTruthy] at h
  | some s => simpa [pyTruthy, pyVal] using h

theorem data_append (a b : String) : (a ++ b).data = a.data ++ b.data := by
  cases a; cases b; rfl

theorem hasSchemeTail_append {xs : List Char} (ys : List Char)
    (h : hasSchemeTail xs = true) : hasSchemeTail (xs ++ ys) = true := by
  induction xs with
  | nil => simp [hasSchemeTail] at h
  | cons c cs ih =>
    have he : (c :: cs) ++ ys = c :: (cs ++ ys) := rfl
    rw [he, hasSchemeTail]
    rw [hasSchemeTail] at h
    by_cases h1 : c = ':'
    · rw [if_pos h1]
    · rw [if_neg h1] at h ⊢
      by_cases h2 : (c.isAlphanum || c = '+' || c = '-' || c = '.') = true
      · rw [if_pos h2] at h ⊢
        exact ih h
      · rw [if_neg h2] at h
        exact absurd h (by simp)

theorem hasSchemeL_append {xs : List Char} (ys : List Char)
    (h : hasSchemeL xs = true) : hasSchemeL (xs ++ ys) = true := by
  cases xs with
  | nil => simp [hasSchemeL] at h
  | cons c cs =>
    have he : (c :: cs) ++ ys = c :: (cs ++ ys) := rfl
    rw [he, hasSchemeL]
    rw [hasSchemeL] at h
    rcases Bool.and_eq_true_iff.1 h with ⟨h1, h2⟩
    exact Bool.and_eq_true_iff.2 ⟨h1, hasSchemeTail_append ys h2⟩

theorem hasScheme_append (a b : String) (h : hasScheme a = true) :
    hasScheme (a ++ b) = true := by
  rw [hasScheme, data_append]
  exact hasSchemeL_append b.data h

theorem hasSchemeL_http (t : List Char) :
    hasSchemeL ('h' :: 't' :: 't' :: 'p' :: ':' :: t) = true := rfl

theorem hasSchemeL_https (t : List Char) :
    hasSchemeL ('h' :: 't' :: 't' :: 'p' :: 's' :: ':' :: t) = true := rfl

theorem isHttpL_cases {l : List Char} (h : isHttpL l = true) :
    (∃ t, l = 'h' :: 't' :: 't' :: 'p' :: ':' :: '/' :: '/' :: t) ∨
      (∃ t, l = 'h' :: 't' :: 't' :: 'p' :: 's' :: ':' :: '/' :: '/' :: t) := by
  unfold isHttpL at h
  split at h
  · exact Or.inl ⟨_, rfl⟩
  · exact Or.inr ⟨_, rfl⟩
  · exact absurd h (by simp)

theorem splitSchemeSep_http (t : List Char) :
    splitSchemeSep ('h' :: 't' :: 't' :: 'p' :: ':' :: '/' :: '/' :: t) =
      some (['h', 't', 't', 'p'], t) := rfl

theorem splitSchemeSep_https (t : List Char) :
    splitSchemeSep ('h' :: 't' :: 't' :: 'p' :: 's' :: ':' :: '/' :: '/' :: t) =
      some (['h', 't', 't', 'p', 's'], t) := rfl

theorem urljoinL_http_hasScheme (t url : List Char) :
    hasSchemeL (urljoinL ('h' :: 't' :: 't' :: 'p' :: ':' :: '/' :: '/' :: t) url) = true := by
  cases url with
  | nil => simpa [urljoinL] using hasSchemeL_http ('/' :: '/' :: t)
  | cons c cs =>
    rw [urljoinL]
    · by_cases hsc : hasSchemeL (c :: cs)
      · simp [hsc]
      · simp only [hsc, Bool.false_eq_true, if_false, splitSchemeSep_http]
        split
        · exact hasSchemeL_http _
        · exact hasSchemeL_http _
        · exact hasSchemeL_http _
    · exact fun h => List.noConfusion h

theorem urljoinL_https_hasScheme (t url : List Char) :
    hasSchemeL (urljoinL ('h' :: 't' :: 't' :: 'p' :: 's' :: ':' :: '/' :: '/' :: t) url) = true := by
  cases url with
  | nil => simpa [urljoinL] using hasSchemeL_https ('/' :: '/' :: t)
  | cons c cs =>
    rw [urljoinL]
    · by_cases hsc : hasSchemeL (c :: cs)
      · simp [hsc]
      · simp only [hsc, Bool.false_eq_true, if_false, splitSchemeSep_https]
        split
        · exact hasSchemeL_https _
        · exact hasSchemeL_https _
        · exact hasSchemeL_https _
    · exact fun h => List.noConfusion h

theorem urljoin_hasScheme {base : String} (hb : isHttpBase base = true) (url : String) :
    hasScheme (urljoin base url) = true := by
  unfold isHttpBase at hb
  unfold hasScheme urljoin
  rcases isHttpL_cases hb with ⟨t, ht⟩ | ⟨t, ht⟩ <;> rw [ht]
  · exact urljoinL_http_hasScheme t url.data
  · exact urljoinL_https_hasScheme t url.data

theorem hasScheme_ne_empty {s : String} (h : hasScheme s = true) : s ≠ "" := by
  intro he
  subst he
  simp [hasScheme, hasSchemeL] at h

theorem isHttpBase_hasScheme {s : String} (h : isHttpBase s = true) : hasScheme s = true := by
  unfold isHttpBase at h
  unfold hasScheme
  rcases isHttpL_cases h with ⟨t, ht⟩ | ⟨t, ht⟩ <;> rw [ht]
  · exact hasSchemeL_http _
  · exact hasSchemeL_https _

theorem isHttpBase_ne_empty {s : String} (h : isHttpBase s = true) : s ≠ "" :=
  hasScheme_ne_empty (isHttpBase_hasScheme h)

theorem readersSearchUrl_http (q : String) : isHttpBase (readersSearchUrl q) = true := by
  unfold readersSearchUrl isHttpBase
  rw [data_append]
  rfl

theorem mkCardItem_spec {u : String} (hu : isHttpBase u = true) {T P H : Option String}
    {it : Item} (h : mkCardItem u T P H = some it) :
    (∃ raw, raw ≠ "" ∧ it.title = _clean raw) ∧ hasScheme it.href = true := by
  unfold mkCardItem at h
  split at h
  · next hc =>
    cases h
    exact ⟨⟨pyVal T, pyTruthy_val_ne hc, rfl⟩, urljoin_hasScheme hu (pyVal H)⟩
  · exact Option.noConfusion h

theorem ccMkItem_spec {u : String} (hu : isHttpBase u = true) {card : Card} {it : Item}
    (h : ccMkItem u card = some it) :
    (∃ raw, raw ≠ "" ∧ it.title = _clean raw) ∧ hasScheme it.href = true :=
  mkCardItem_spec hu h

theorem tcMkItem_spec {u : String} (hu : isHttpBase u = true) {card : Card} {it : Item}
    (h : tcMkItem u card = some it) :
    (∃ raw, raw ≠ "" ∧ it.title = _clean raw) ∧ hasScheme it.href = true :=
  mkCardItem_spec hu h

theorem rdMkItem_spec {u : String} (hu : isHttpBase u = true) {card : Card} {it : Item}
    (h : rdMkItem u card = some it) :
    (∃ raw, raw ≠ "" ∧ it.title = _clean raw) ∧ hasScheme it.href = true :=
  mkCardItem_spec hu h

theorem push_product_spec {u : String} (hu : isHttpBase u = true) {p : ProdFields} {it : Item}
    (h : push_product u p = some it) :
    (∃ raw, raw ≠ "" ∧ it.title = _clean raw) ∧ hasScheme it.href = true :=
  mkCardItem_spec hu h

theorem tcJsonItem_spec {u : String} (hu : isHttpBase u = true) {p : TCProduct} {it : Item}
    (h : tcJsonItem u p = some it) :
    (∃ raw, raw ≠ "" ∧ it.title = _clean raw) ∧ hasScheme it.href = true := by
  unfold tcJsonItem at h
  dsimp only at h
  by_cases hc : pyTruthy p.title = true
  · rw [if_pos hc] at h
    cases h
    refine ⟨⟨pyVal p.title, pyTruthy_val_ne hc, rfl⟩, ?_⟩
    cases hh : p.handle with
    | none => simpa using isHttpBase_hasScheme hu
    | some hd =>
      by_cases hhe : hd = ""
      · simpa [hhe] using isHttpBase_hasScheme hu
      · simpa [hhe] using hasScheme_append "https://shop.timecenter.jo/products/" hd (by decide)
  · rw [if_neg hc] at h
    exact Option.noConfusion h

theorem collectCards_eq (mk : Card → Option Item) (cards : List Card) (acc : List Item) :
    collectCards mk cards acc = acc ++ (cards.filterMap mk).take (8 - acc.length) := by
  induction cards generalizing acc with
  | nil => simp [collectCards]
  | cons card rest ih =>
    rw [collectCards]
    by_cases h8 : 8 ≤ acc.length
    · rw [if_pos h8, Nat.sub_eq_zero_of_le h8]
      simp
    · rw [if_neg h8]
      have hlt : acc.length < 8 := Nat.lt_of_not_le h8
      cases hmk : mk card with
      | some it =>
        simp only [List.filterMap_cons, hmk, ih, List.length_append, List.length_cons,
          List.length_nil]
        have hn : 8 - acc.length = (8 - (acc.length + (0 + 1))) + 1 := by omega
        rw [hn, List.take_succ_cons]
        simp [List.append_assoc]
      | none =>
        simp [List.filterMap_cons, hmk, ih]

theorem collectCards_nil_mem {mk : Card → Option Item} {cards : List Card} {it : Item}
    (h : it ∈ collectCards mk cards []) : ∃ card, mk card = some it := by
  rw [collectCards_eq] at h
  simp only [List.nil_append] at h
  rcases List.mem_filterMap.1 (List.take_subset _ _ h) with ⟨c, _, hc⟩
  exact ⟨c, hc⟩

theorem collectCards_nil_length {mk : Card → Option Item} (cards : List Card) :
    (collectCards mk cards []).length ≤ 8 := by
  rw [collectCards_eq]
  simp [List.length_take_le]

theorem ldLiItem_mem {base : String} {li : LdLi} {it : Item}
    (h : ldLiItem base li = some it) : ∃ p, push_product base p = some it := by
  cases li with
  | nonDict => simp [ldLiItem] at h
  | dict fields item =>
    cases item with
    | none => exact ⟨fields, by simpa [ldLiItem] using h⟩
    | some iv =>
      cases iv with
      | dict p => exact ⟨p, by simpa [ldLiItem] using h⟩
      | nonDict b => simp [ldLiItem] at h

theorem ldEntryItems_mem {base : String} {e : LdEntryObj} {it : Item}
    (h : it ∈ ldEntryItems base e) : ∃ p, push_product base p = some it := by
  unfold ldEntryItems at h
  split_ifs at h with h1 h2
  · cases hp : push_product base e.fields with
    | none => rw [hp] at h; simp [Option.toList] at h
    | some x =>
      rw [hp] at h
      simp only [Option.toList, List.mem_singleton] at h
      exact ⟨e.fields, by rw [hp, h]⟩
  · rcases List.mem_filterMap.1 h with ⟨li, _, hli⟩
    exact ldLiItem_mem hli
  · simp at h

theorem ldDataItems_mem {base : String} {d : LdData} {it : Item}
    (h : it ∈ ldDataItems base d) : ∃ p, push_product base p = some it := by
  cases d with
  | lst entries =>
    unfold ldDataItems at h
    rw [List.mem_flatten] at h
    rcases h with ⟨l, hl, hit⟩
    rcases List.mem_map.1 hl with ⟨en, _, rfl⟩
    cases en with
    | nonDict => simp at hit
    | dict e => exact ldEntryItems_mem hit
  | dict e => exact ldEntryItems_mem h
  | other => simp [ldDataItems] at h

theorem ldItems_mem {base : String} {scripts : List (Option LdData)} {it : Item}
    (h : it ∈ ldItems base scripts) : ∃ p, push_product base p = some it := by
  unfold ldItems at h
  rw [List.mem_flatten] at h
  rcases h with ⟨l, hl, hit⟩
  rcases List.mem_map.1 hl with ⟨s, _, rfl⟩
  cases s with
  | none => simp at hit
  | some d => exact ldDataItems_mem hit

theorem readers_extract_mem {doc : ReadersDoc} {base : String} {it : Item}
    (h : it ∈ _readers_extract_from_doc doc base) :
    (∃ p, push_product base p = some it) ∨ (∃ card, rdMkItem base card = some it) := by
  unfold _readers_extract_from_doc at h
  by_cases h8 : (ldItems base doc.scripts).length < 8
  · rw [if_pos h8, collectCards_eq] at h
    rcases List.mem_append.1 h with h | h
    · exact Or.inl (ldItems_mem h)
    · rcases List.mem_filterMap.1 (List.take_subset _ _ h) with ⟨c, _, hc⟩
      exact Or.inr ⟨c, hc⟩
  · rw [if_neg h8] at h
    exact Or.inl (ldItems_mem h)

theorem tcJsonItems_mem {u : String} {ps : List TCProduct} {it : Item}
    (h : it ∈ tcJsonItems u ps) : ∃ p, tcJsonItem u p = some it := by
  unfold tcJsonItems at h
  rcases List.mem_filterMap.1 h with ⟨p, _, hp⟩
  exact ⟨p, hp⟩

theorem stepEntries_len (name : String) (oc : Except (String × String) SiteResult) :
    1 ≤ (stepEntries name oc).length ∧ (stepEntries name oc).length ≤ 2 := by
  cases oc <;> simp [stepEntries]

theorem scrape_main_eq (oc ot orr : Except (String × String) SiteResult) :
    scrape_main oc ot orr =
      stepEntries "citycenter" oc ++ stepEntries "timecenter" ot ++
        stepEntries "readers" orr := by
  simp [scrape_main, List.foldl_cons, List.foldl_nil, List.append_assoc]

/-- Decidable equality for Except outcomes, so that concrete extractor runs
can be checked by evaluation. -/
instance exceptDecEq {e a : Type} [DecidableEq e] [DecidableEq a] :
    DecidableEq (Except e a) := fun x y =>
  match x, y with
  | .ok v, .ok w =>
    if h : v = w then isTrue (by rw [h]) else isFalse (by simp [h])
  | .error v, .error w =>
    if h : v = w then isTrue (by rw [h]) else isFalse (by simp [h])
  | .ok _, .error _ => isFalse (by simp)
  | .error _, .ok _ => isFalse (by simp)

/-- C2: if all three site extractions raise, the orchestrator run (which
never raises: each outcome is already the caught per-site result) produces
exactly the six error and trace keys and no data keys; in general every
site contributes its own entries independently of the other sites'
outcomes, so one failure never prevents the remaining sites from being
attempted and recorded. -/
theorem orchestrator_isolates_failures :
    (∀ oc ot orr, scrape_main oc ot orr =
        stepEntries "citycenter" oc ++ stepEntries "timecenter" ot ++
          stepEntries "readers" orr)
    ∧ ∀ m1 t1 m2 t2 m3 t3,
        scrape_main (.error (m1, t1)) (.error (m2, t2)) (.error (m3, t3)) =
          [("citycenter_error", .txt m1), ("citycenter_trace", .txt t1),
           ("timecenter_error", .txt m2), ("timecenter_trace", .txt t2),
           ("readers_error", .txt m3), ("readers_trace", .txt t3)] := by
  refine ⟨scrape_main_eq, fun m1 t1 m2 t2 m3 t3 => ?_⟩
  rw [scrape_main_eq]
  rfl

/-- C6: the combined result holds exactly the entries contributed by the
three configured sites — one success entry or one error-and-trace pair
each — so its key count lies between 3 and 6, and writing the output file
in mode w makes the path map to the new content whatever was stored
before. -/
theorem combined_result_shape :
    (∀ oc ot orr, 3 ≤ (scrape_main oc ot orr).length ∧
        (scrape_main oc ot orr).length ≤ 6)
    ∧ (∀ oc ot orr, scrape_main oc ot orr =
        stepEntries "citycenter" oc ++ stepEntries "timecenter" ot ++
          stepEntries "readers" orr)
    ∧ (∀ fs c, writeOut fs OUT_JSON c OUT_JSON = some c) := by
  refine ⟨?_, scrape_main_eq, ?_⟩
  · intro oc ot orr
    rw [scrape_main_eq]
    simp only [List.length_append]
    have h1 := stepEntries_len "citycenter" oc
    have h2 := stepEntries_len "timecenter" ot
    have h3 := stepEntries_len "readers" orr
    omega
  · intro fs c
    simp [writeOut]

/-- C8: the parallel run and the sequential run of the reports script
merge the same three report values in the same order, hence are equal, and
the written output is the sequential result whether or not the pool run
raises. -/
theorem parallel_equals_sequential :
    (∀ df, run_parallel df = run_sequential df)
    ∧ ∀ poolOk df, reports_main_out poolOk df = run_sequential df := by
  constructor
  · intro df
    rfl
  · intro poolOk df
    cases poolOk
    · simp [reports_main_out]
    · simp only [reports_main_out, if_pos]
      rfl

/-- C7: the City Center extractor raises exactly when the card loop
collected zero items, and with at least one item it returns the success
record built from the collected items. -/
theorem citycenter_error_iff (u : String) (cards : List Card) :
    ((∃ e, parse_citycenter_laptops u cards = .error e) ↔
      collectCards (ccMkItem u) cards [] = [])
    ∧ ∀ r, parse_citycenter_laptops u cards = .ok r →
        r = { source := u, items_count := (collectCards (ccMkItem u) cards []).length,
              items_preview := (collectCards (ccMkItem u) cards []).take 8,
              note := none } := by
  unfold parse_citycenter_laptops
  by_cases h : collectCards (ccMkItem u) cards [] = []
  · simp [h]
  · simp [h]

/-- A product card recognized by the City Center selector chains, used to
instantiate the extractor theorems. -/
def okCard : Card :=
  { text := fun sel => if sel = "h4 a" then "Laptop A" else
      if sel = ".price" then "199" else "",
    attr := fun sel name =>
      if sel = "h4 a" && name = "href" then some "/laptop-a" else none }

/-- The record parse_citycenter_laptops returns on the page holding just
okCard. -/
def ccOkResult : SiteResult :=
  { source := CITY_URL, items_count := 1,
    items_preview := [{ title := "Laptop A", price := "199",
                        href := "https://citycenter.jo/laptop-a" }],
    note := none }

/-- Witness for C7 at a concrete one-card page. -/
theorem citycenter_error_iff_witness :
    ccOkResult =
      { source := CITY_URL,
        items_count := (collectCards (ccMkItem CITY_URL) [okCard] []).length,
        items_preview := (collectCards (ccMkItem CITY_URL) [okCard] []).take 8,
        note := none } :=
  (citycenter_error_iff CITY_URL [okCard]).2 ccOkResult (by decide)

/-- C10: the Readers per-document extraction is the JSON-LD items followed
(only when fewer than 8 were found, and then only up to the cap) by the
HTML-card items, so JSON-LD items precede HTML items and are never removed
or reordered — they are a prefix of the result. -/
theorem readers_ld_precedes_html (doc : ReadersDoc) (base : String) :
    (_readers_extract_from_doc doc base =
      ldItems base doc.scripts ++
        (if (ldItems base doc.scripts).length < 8 then
          (doc.cards.filterMap (rdMkItem base)).take
            (8 - (ldItems base doc.scripts).length)
        else []))
    ∧ ldItems base doc.scripts <+: _readers_extract_from_doc doc base := by
  have h1 : _readers_extract_from_doc doc base =
      ldItems base doc.scripts ++
        (if (ldItems base doc.scripts).length < 8 then
          (doc.cards.filterMap (rdMkItem base)).take
            (8 - (ldItems base doc.scripts).length)
        else []) := by
    unfold _readers_extract_from_doc
    by_cases h : (ldItems base doc.scripts).length < 8
    · rw [if_pos h, if_pos h, collectCards_eq]
    · rw [if_neg h, if_neg h, List.append_nil]
  exact ⟨h1, h1 ▸ List.prefix_append _ _⟩

/-- C3: when the structured-data tier parses to at least one item, the
Time Center extractor returns that tier's record with a fetch count of 1;
the result does not depend on the HTML-tier response, which is
universally quantified. -/
theorem timecenter_json_short_circuit (timeUrl : String) (ps : List TCProduct)
    (html : Except Unit (List Card)) (hne : tcJsonItems timeUrl ps ≠ []) :
    parse_timecenter_shopify timeUrl ⟨.ok ps, html⟩ =
      (.ok { source := prodJsonUrl timeUrl,
             items_count := (tcJsonItems timeUrl ps).length,
             items_preview := tcJsonItems timeUrl ps, note := none }, 1) := by
  unfold parse_timecenter_shopify
  simp [hne]

/-- A products.json entry with a title, handle and one priced variant. -/
def tcW : TCProduct := { title := some "Watch", handle := some "w-1",
                         variants := [{ price := some "10.0" }] }

/-- Witness for C3 at a one-product JSON payload (the HTML tier response
is a failed fetch, showing it is not consulted). -/
theorem timecenter_json_short_circuit_witness :
    parse_timecenter_shopify TIME_URL ⟨.ok [tcW], .error ()⟩ =
      (.ok { source := prodJsonUrl TIME_URL,
             items_count := (tcJsonItems TIME_URL [tcW]).length,
             items_preview := tcJsonItems TIME_URL [tcW], note := none }, 1) :=
  timecenter_json_short_circuit TIME_URL [tcW] (.error ()) (by decide)

theorem tcJsonItems_length_le (u : String) (ps : List TCProduct) :
    (tcJsonItems u ps).length ≤ 8 :=
  le_trans (List.length_filterMap_le _ _) (List.length_take_le 8 ps)

theorem tcHtmlTierRun_ok {u : String} {ht : Except Unit (List Card)} {r : SiteResult}
    (h : tcHtmlTierRun u ht = .ok r) :
    r.items_count = r.items_preview.length ∧ r.items_preview.length ≤ 8 := by
  unfold tcHtmlTierRun at h
  cases ht with
  | error e => exact Except.noConfusion h
  | ok cards =>
    dsimp only at h
    by_cases he : collectCards (tcMkItem u) cards [] = []
    · rw [if_pos he] at h
      exact Except.noConfusion h
    · rw [if_neg he] at h
      cases h
      have hl := @collectCards_nil_length (tcMkItem u) cards
      exact ⟨by simp [List.take_of_length_le hl], List.length_take_le 8 _⟩

/-- An itemListElement entry with a product title, used to build a page
whose JSON-LD pass yields more than 8 items. -/
def rdNineLi : LdLi :=
  .dict { name := some "B", offers := .offersDict (some "1") none, url := some "/b" } none

/-- A JSON-LD ItemList node holding 9 copies of rdNineLi. -/
def rdNineObj : LdEntryObj :=
  { typ := some "ItemList",
    fields := { name := none, offers := .noOffers, url := none },
    itemListElement := List.replicate 9 rdNineLi }

/-- A Readers page whose single JSON-LD script is an ItemList of 9
products and which has no HTML cards. -/
def rdNineDoc : ReadersDoc :=
  { scripts := [some (.dict rdNineObj)], cards := [] }

/-- Counterexample to C1 as stated: on a Readers page whose JSON-LD
ItemList holds 9 products, the returned record has items_count 9 but an
items_preview of length 8 — the JSON-LD pass is uncapped while the preview
is truncated, so items_count can differ from the preview length. -/
theorem extractor_counts_counterexample :
    (parse_readers READERS_URL READERS_QUERY (.ok rdNineDoc) (.error ())).1.map
      (fun r => (r.items_count, r.items_preview.length)) = .ok (9, 8) := by decide

theorem take8_count (items : List Item) :
    (items.take 8).length = min items.length 8 ∧
      (items.length ≤ 8 → items.length = (items.take 8).length) := by
  constructor
  · simp [List.length_take, Nat.min_comm]
  · intro hle
    simp [List.take_of_length_le hle]

/-- C1 (amended): for City Center and Time Center results items_count
equals the items_preview length, which is at most 8; for Readers the
items_preview length is the minimum of items_count and 8 — equal to
items_count only when at most 8 items were extracted, since the JSON-LD
pass is uncapped. -/
theorem extractor_counts_amended :
    (∀ u cards r, parse_citycenter_laptops u cards = .ok r →
        r.items_count = r.items_preview.length ∧ r.items_preview.length ≤ 8)
    ∧ (∀ u w r, (parse_timecenter_shopify u w).1 = .ok r →
        r.items_count = r.items_preview.length ∧ r.items_preview.length ≤ 8)
    ∧ (∀ u q p s r, (parse_readers u q p s).1 = .ok r →
        r.items_preview.length = min r.items_count 8 ∧
          (r.items_count ≤ 8 → r.items_count = r.items_preview.length)) := by
  refine ⟨?_, ?_, ?_⟩
  · intro u cards r h
    unfold parse_citycenter_laptops at h
    dsimp only at h
    by_cases he : collectCards (ccMkItem u) cards [] = []
    · rw [if_pos he] at h
      exact Except.noConfusion h
    · rw [if_neg he] at h
      cases h
      have hl := @collectCards_nil_length (ccMkItem u) cards
      exact ⟨by simp [List.take_of_length_le hl], List.length_take_le 8 _⟩
  · intro u w r h
    obtain ⟨jt, ht⟩ := w
    cases jt with
    | error e =>
      exact tcHtmlTierRun_ok h
    | ok ps =>
      unfold parse_timecenter_shopify at h
      dsimp only at h
      by_cases he : tcJsonItems u ps = []
      · rw [if_pos he] at h
        exact tcHtmlTierRun_ok h
      · rw [if_neg he] at h
        cases h
        exact ⟨rfl, tcJsonItems_length_le u ps⟩
  · intro u q p s r h
    cases p with
    | error e => exact Except.noConfusion h
    | ok doc =>
      unfold parse_readers at h
      dsimp only at h
      by_cases he : _readers_extract_from_doc doc u = []
      · rw [if_pos he] at h
        cases s with
        | error e => exact Except.noConfusion h
        | ok sdoc =>
          dsimp only at h
          by_cases he2 : _readers_extract_from_doc sdoc (readersSearchUrl q) = []
          · rw [if_pos he2] at h
            exact Except.noConfusion h
          · rw [if_neg he2] at h
            cases h
            exact take8_count _
      · rw [if_neg he] at h
        cases h
        exact take8_count _

/-- The record parse_timecenter_shopify returns on the one-product JSON
payload [tcW]. -/
def tcOkResult : SiteResult :=
  { source := "https://shop.timecenter.jo/collections/men-watches/products.json",
    items_count := 1,
    items_preview := [{ title := "Watch", price := "10.0",
                        href := "https://shop.timecenter.jo/products/w-1" }],
    note := none }

/-- The record parse_readers returns on the nine-product page rdNineDoc. -/
def rdNineResult : SiteResult :=
  { source := READERS_URL, items_count := 9,
    items_preview := List.replicate 8
      { title := "B", price := "1", href := "https://www.readers.jo/b" },
    note := none }

/-- Witness for the amended C1 at concrete runs of all three extractors. -/
theorem extractor_counts_amended_witness :
    (ccOkResult.items_count = ccOkResult.items_preview.length ∧
      ccOkResult.items_preview.length ≤ 8)
    ∧ (tcOkResult.items_count = tcOkResult.items_preview.length ∧
      tcOkResult.items_preview.length ≤ 8)
    ∧ (rdNineResult.items_preview.length = min rdNineResult.items_count 8 ∧
      (rdNineResult.items_count ≤ 8 →
        rdNineResult.items_count = rdNineResult.items_preview.length)) :=
  ⟨extractor_counts_amended.1 CITY_URL [okCard] ccOkResult (by decide),
   extractor_counts_amended.2.1 TIME_URL ⟨.ok [tcW], .error ()⟩ tcOkResult (by decide),
   extractor_counts_amended.2.2 READERS_URL READERS_QUERY (.ok rdNineDoc) (.error ())
     rdNineResult (by decide)⟩

/-- C4: when the primary Readers page yields zero items, exactly one
additional fetch is performed, against the search URL built from the
url-encoded query; a non-empty search result is returned as a success
record carrying the fallback note; and (both fetches succeeding) an error
is raised only when the search page also yields zero items. -/
theorem readers_search_fallback (url q : String) (pdoc sdoc : ReadersDoc)
    (hp : _readers_extract_from_doc pdoc url = []) :
    ((parse_readers url q (.ok pdoc) (.ok sdoc)).2 = [url, readersSearchUrl q])
    ∧ (_readers_extract_from_doc sdoc (readersSearchUrl q) ≠ [] →
        (parse_readers url q (.ok pdoc) (.ok sdoc)).1 =
          .ok { source := readersSearchUrl q,
                items_count := (_readers_extract_from_doc sdoc (readersSearchUrl q)).length,
                items_preview :=
                  (_readers_extract_from_doc sdoc (readersSearchUrl q)).take 8,
                note := some (readersNote q) })
    ∧ ∀ e, (parse_readers url q (.ok pdoc) (.ok sdoc)).1 = .error e →
        _readers_extract_from_doc sdoc (readersSearchUrl q) = [] := by
  unfold parse_readers
  dsimp only
  rw [if_pos hp]
  by_cases h2 : _readers_extract_from_doc sdoc (readersSearchUrl q) = []
  · rw [if_pos h2]
    exact ⟨rfl, fun hne => absurd h2 hne, fun e _ => h2⟩
  · rw [if_neg h2]
    exact ⟨rfl, fun _ => rfl, fun e he => Except.noConfusion he⟩

/-- A Readers page with no JSON-LD scripts and no product cards. -/
def rdEmptyDoc : ReadersDoc := { scripts := [], cards := [] }

/-- A JSON-LD Product node for the search page. -/
def rdSearchObj : LdEntryObj :=
  { typ := some "Product",
    fields := { name := some "Book", offers := .offersDict (some "5") none,
                url := some "/p/1" },
    itemListElement := [] }

/-- A Readers search page whose single JSON-LD script is one Product
node. -/
def rdSearchDoc : ReadersDoc :=
  { scripts := [some (.dict rdSearchObj)], cards := [] }

/-- Witness for C4 at a concrete empty primary page and one-product search
page. -/
theorem readers_search_fallback_witness :
    ((parse_readers READERS_URL READERS_QUERY (.ok rdEmptyDoc) (.ok rdSearchDoc)).2 =
      [READERS_URL, readersSearchUrl READERS_QUERY])
    ∧ (parse_readers READERS_URL READERS_QUERY (.ok rdEmptyDoc) (.ok rdSearchDoc)).1 =
        .ok { source := readersSearchUrl READERS_QUERY,
              items_count :=
                (_readers_extract_from_doc rdSearchDoc
                  (readersSearchUrl READERS_QUERY)).length,
              items_preview :=
                (_readers_extract_from_doc rdSearchDoc
                  (readersSearchUrl READERS_QUERY)).take 8,
              note := some (readersNote READERS_QUERY) } :=
  ⟨(readers_search_fallback READERS_URL READERS_QUERY rdEmptyDoc rdSearchDoc (by decide)).1,
   (readers_search_fallback READERS_URL READERS_QUERY rdEmptyDoc rdSearchDoc
     (by decide)).2.1 (by decide)⟩

theorem citycenter_ok_items {u : String} (hu : isHttpBase u = true) {cards : List Card}
    {r : SiteResult} (h : parse_citycenter_laptops u cards = .ok r) :
    ∀ it ∈ r.items_preview,
      (∃ raw, raw ≠ "" ∧ it.title = _clean raw) ∧ hasScheme it.href = true := by
  intro it hit
  unfold parse_citycenter_laptops at h
  dsimp only at h
  by_cases he : collectCards (ccMkItem u) cards [] = []
  · rw [if_pos he] at h
    exact Except.noConfusion h
  · rw [if_neg he] at h
    cases h
    rcases collectCards_nil_mem (List.take_subset _ _ hit) with ⟨c, hc⟩
    exact ccMkItem_spec hu hc

theorem tcHtmlTierRun_items {u : String} (hu : isHttpBase u = true)
    {ht : Except Unit (List Card)} {r : SiteResult} (h : tcHtmlTierRun u ht = .ok r) :
    ∀ it ∈ r.items_preview,
      (∃ raw, raw ≠ "" ∧ it.title = _clean raw) ∧ hasScheme it.href = true := by
  intro it hit
  unfold tcHtmlTierRun at h
  cases ht with
  | error e => exact Except.noConfusion h
  | ok cards =>
    dsimp only at h
    by_cases he : collectCards (tcMkItem u) cards [] = []
    · rw [if_pos he] at h
      exact Except.noConfusion h
    · rw [if_neg he] at h
      cases h
      rcases collectCards_nil_mem (List.take_subset _ _ hit) with ⟨c, hc⟩
      exact tcMkItem_spec hu hc

theorem timecenter_ok_items {u : String} (hu : isHttpBase u = true) {w : TCFetches}
    {r : SiteResult} (h : (parse_timecenter_shopify u w).1 = .ok r) :
    ∀ it ∈ r.items_preview,
      (∃ raw, raw ≠ "" ∧ it.title = _clean raw) ∧ hasScheme it.href = true := by
  obtain ⟨jt, ht⟩ := w
  cases jt with
  | error e =>
    dsimp only [parse_timecenter_shopify] at h
    exact tcHtmlTierRun_items hu h
  | ok ps =>
    dsimp only [parse_timecenter_shopify] at h
    by_cases he : tcJsonItems u ps = []
    · rw [if_pos he] at h
      exact tcHtmlTierRun_items hu h
    · rw [if_neg he] at h
      cases h
      intro it hit
      rcases tcJsonItems_mem hit with ⟨p, hp⟩
      exact tcJsonItem_spec hu hp

theorem readers_extract_spec {doc : ReadersDoc} {base : String} {it : Item}
    (hb : isHttpBase base = true) (h : it ∈ _readers_extract_from_doc doc base) :
    (∃ raw, raw ≠ "" ∧ it.title = _clean raw) ∧ hasScheme it.href = true := by
  rcases readers_extract_mem h with ⟨p, hp⟩ | ⟨c, hc⟩
  · exact push_product_spec hb hp
  · exact rdMkItem_spec hb hc

theorem readers_ok_items {u q : String} (hu : isHttpBase u = true)
    {p s : Except Unit ReadersDoc} {r : SiteResult}
    (h : (parse_readers u q p s).1 = .ok r) :
    ∀ it ∈ r.items_preview,
      (∃ raw, raw ≠ "" ∧ it.title = _clean raw) ∧ hasScheme it.href = true := by
  intro it hit
  cases p with
  | error e => exact Except.noConfusion h
  | ok doc =>
    unfold parse_readers at h
    dsimp only at h
    by_cases he : _readers_extract_from_doc doc u = []
    · rw [if_pos he] at h
      cases s with
      | error e => exact Except.noConfusion h
      | ok sdoc =>
        dsimp only at h
        by_cases he2 : _readers_extract_from_doc sdoc (readersSearchUrl q) = []
        · rw [if_pos he2] at h
          exact Except.noConfusion h
        · rw [if_neg he2] at h
          cases h
          exact readers_extract_spec (readersSearchUrl_http q)
            (List.take_subset _ _ hit)
    · rw [if_neg he] at h
      cases h
      exact readers_extract_spec hu (List.take_subset _ _ hit)

/-- A product card whose only recognized title text is a single space:
truthy before cleanup, empty after. -/
def wsCard : Card :=
  { text := fun sel => if sel = "h4 a" then " " else "",
    attr := fun _ _ => none }

/-- Counterexample to C5 as stated: a City Center card whose raw title is
a single space passes the truthiness gate, but the stored title is its
cleanup, the empty string — so a produced Item can have an empty title. -/
theorem item_title_counterexample :
    (parse_citycenter_laptops CITY_URL [wsCard]).map
      (fun r => r.items_preview.map Item.title) = .ok [""] := by decide

/-- C5 (amended): for every produced Item the title is the _clean image of
a raw title that was non-empty before cleanup (cleanup of a
whitespace-or-artifact-only raw title can leave the stored title empty),
and — the configured base URLs being of http(s) shape — the href is either
the empty string or an absolute URL resolved against the page's base (in
fact always absolute). -/
theorem item_fields_amended :
    (∀ u cards r, isHttpBase u = true → parse_citycenter_laptops u cards = .ok r →
        ∀ it ∈ r.items_preview, (∃ raw, raw ≠ "" ∧ it.title = _clean raw) ∧
          (it.href = "" ∨ hasScheme it.href = true))
    ∧ (∀ u w r, isHttpBase u = true → (parse_timecenter_shopify u w).1 = .ok r →
        ∀ it ∈ r.items_preview, (∃ raw, raw ≠ "" ∧ it.title = _clean raw) ∧
          (it.href = "" ∨ hasScheme it.href = true))
    ∧ (∀ u q p s r, isHttpBase u = true → (parse_readers u q p s).1 = .ok r →
        ∀ it ∈ r.items_preview, (∃ raw, raw ≠ "" ∧ it.title = _clean raw) ∧
          (it.href = "" ∨ hasScheme it.href = true)) :=
  ⟨fun u cards r hu h it hit =>
      ⟨(citycenter_ok_items hu h it hit).1, Or.inr (citycenter_ok_items hu h it hit).2⟩,
   fun u w r hu h it hit =>
      ⟨(timecenter_ok_items hu h it hit).1, Or.inr (timecenter_ok_items hu h it hit).2⟩,
   fun u q p s r hu h it hit =>
      ⟨(readers_ok_items hu h it hit).1, Or.inr (readers_ok_items hu h it hit).2⟩⟩

/-- The item parse_citycenter_laptops builds from okCard. -/
def ccItem0 : Item :=
  { title := "Laptop A", price := "199", href := "https://citycenter.jo/laptop-a" }

/-- The item the Time Center JSON tier builds from tcW. -/
def tcItem0 : Item :=
  { title := "Watch", price := "10.0",
    href := "https://shop.timecenter.jo/products/w-1" }

/-- The item the Readers JSON-LD pass builds from rdNineLi. -/
def rdItem0 : Item :=
  { title := "B", price := "1", href := "https://www.readers.jo/b" }

/-- Witness for the amended C5 at concrete items of all three
extractors. -/
theorem item_fields_amended_witness :
    ((∃ raw, raw ≠ "" ∧ ccItem0.title = _clean raw) ∧
      (ccItem0.href = "" ∨ hasScheme ccItem0.href = true))
    ∧ ((∃ raw, raw ≠ "" ∧ tcItem0.title = _clean raw) ∧
      (tcItem0.href = "" ∨ hasScheme tcItem0.href = true))
    ∧ ((∃ raw, raw ≠ "" ∧ rdItem0.title = _clean raw) ∧
      (rdItem0.href = "" ∨ hasScheme rdItem0.href = true)) :=
  ⟨item_fields_amended.1 CITY_URL [okCard] ccOkResult (by decide) (by decide)
      ccItem0 (by decide),
   item_fields_amended.2.1 TIME_URL ⟨.ok [tcW], .error ()⟩ tcOkResult (by decide)
      (by decide) tcItem0 (by decide),
   item_fields_amended.2.2 READERS_URL READERS_QUERY (.ok rdNineDoc) (.error ())
      rdNineResult (by decide) (by decide) rdItem0 (by decide)⟩

/-- C9: with the configured base URLs of http(s) shape, every produced
Item has a non-empty href — a missing link element resolves the empty
string against the base, which yields an absolute (hence non-empty) URL,
and the Time Center JSON tier builds a non-empty product URL or falls back
to the configured listing URL. -/
theorem item_href_nonempty :
    (∀ u cards r, isHttpBase u = true → parse_citycenter_laptops u cards = .ok r →
        ∀ it ∈ r.items_preview, it.href ≠ "")
    ∧ (∀ u w r, isHttpBase u = true → (parse_timecenter_shopify u w).1 = .ok r →
        ∀ it ∈ r.items_preview, it.href ≠ "")
    ∧ (∀ u q p s r, isHttpBase u = true → (parse_readers u q p s).1 = .ok r →
        ∀ it ∈ r.items_preview, it.href ≠ "") :=
  ⟨fun u cards r hu h it hit =>
      hasScheme_ne_empty (citycenter_ok_items hu h it hit).2,
   fun u w r hu h it hit =>
      hasScheme_ne_empty (timecenter_ok_items hu h it hit).2,
   fun u q p s r hu h it hit =>
      hasScheme_ne_empty (readers_ok_items hu h it hit).2⟩

/-- Witness for C9 at concrete items of all three extractors. -/
theorem item_href_nonempty_witness :
    ccItem0.href ≠ "" ∧ tcItem0.href ≠ "" ∧ rdItem0.href ≠ "" :=
  ⟨item_href_nonempty.1 CITY_URL [okCard] ccOkResult (by decide) (by decide)
      ccItem0 (by decide),
   item_href_nonempty.2.1 TIME_URL ⟨.ok [tcW], .error ()⟩ tcOkResult (by decide)
      (by decide) tcItem0 (by decide),
   item_href_nonempty.2.2 READERS_URL READERS_QUERY (.ok rdNineDoc) (.error ())
      rdNineResult (by decide) (by decide) rdItem0 (by decide)⟩
